import Mathlib

/-!
Shallow embedding of the scanning and classification engine of the
prevent-dangling-todos repository (src/prevent_dangling_todos/prevent_todos.py).
Lines and paths are lists of characters.  The three compiled regular
expressions built by TodoChecker._build_patterns are embedded as decidable
matchers with the regex semantics spelled out on literal keyword lists
(ASCII word model); TodoChecker.check_file, TodoChecker.find_todos_with_grep
and TodoChecker.check_files are embedded as pure functions.  The external
grep process is modelled as an exact line searcher with the same matching
semantics as the compiled comment pattern, and the repository listing and
pre-commit filtering collaborators are modelled by the already filtered
file list they return.
-/

abbrev Line := List Char

abbrev FPath := List Char

def strL (s : String) : List Char := s.toList

/-- Word characters for the regex word boundary: letters, digits, underscore. -/
def wordChar (c : Char) : Bool := c.isAlphanum || c == '_'

def isWordOpt : Option Char → Bool
  | some c => wordChar c
  | none => false

/-- Character just before position i, if any. -/
def prevChar (l : List Char) (i : Nat) : Option Char :=
  if i = 0 then none else l.get? (i - 1)

/-- Occurrence of pat at position i of l surrounded by regex word boundaries,
as in the compiled comment pattern of _build_patterns (line 127). -/
def wholeWordMatchAt (pat l : List Char) (i : Nat) : Bool :=
  decide ((l.drop i).take pat.length = pat)
    && decide (isWordOpt (prevChar l i) ≠ isWordOpt pat.head?)
    && decide (isWordOpt pat.getLast? ≠ isWordOpt (l.get? (i + pat.length)))

/-- Search of the compiled comment pattern: some configured keyword occurs
somewhere in the line as a whole word. -/
def commentSearch (kws : List (List Char)) (l : Line) : Bool :=
  (List.range (l.length + 1)).any (fun i => kws.any (fun p => wholeWordMatchAt p l i))

/-- Match of the compiled jira pattern built at line 136: an occurrence of p
followed by a dash and at least one digit, with no word boundary requirement. -/
def ticketMatchAt (p l : List Char) (i : Nat) : Bool :=
  decide ((l.drop i).take p.length = p)
    && (match l.drop (i + p.length) with
        | c1 :: c2 :: _ => (c1 == '-') && c2.isDigit
        | _ => false)

/-- Search of the compiled jira pattern: some configured project key occurs
with a dash and digits anywhere in the line. -/
def ticketSearch (keys : List (List Char)) (l : Line) : Bool :=
  (List.range (l.length + 1)).any (fun i => keys.any (fun p => ticketMatchAt p l i))

/-- Text of the match that the jira pattern search returns: leftmost position
wins, alternatives are tried in configured order, digits are taken greedily. -/
def ticketMatchTextAt (p l : List Char) (i : Nat) : Option (List Char) :=
  if ticketMatchAt p l i then
    some (p ++ '-' :: (l.drop (i + p.length + 1)).takeWhile Char.isDigit)
  else none

def ticketFirstMatch (keys : List (List Char)) (l : Line) : Option (List Char) :=
  (List.range (l.length + 1)).findSome? (fun i =>
    keys.findSome? (fun p => ticketMatchTextAt p l i))

def lowerChar (c : Char) : Char := c.toLower

/-- Python whitespace class for the \s escape and str.rstrip, ASCII model. -/
def isSpaceCharB (c : Char) : Bool :=
  c == ' ' || c == '\t' || c == '\n' || c == '\r' || c == '\x0b' || c == '\x0c'

def noqaLit : List Char := strL "noqa"

def fixCodesLower : List (List Char) :=
  [strL "fix001", strL "fix002", strL "fix003", strL "fix004"]

/-- Search of the compiled noqa pattern of line 144, case insensitive: either
the marker noqa followed only by whitespace to the end of the line, or the
marker noqa followed later in the line by one of the four fixed codes. -/
def noqaSearch (line : Line) : Bool :=
  (List.range ((line.map lowerChar).length + 1)).any (fun i =>
    decide (((line.map lowerChar).drop i).take 4 = noqaLit)
      && ((((line.map lowerChar).drop (i + 4)).all isSpaceCharB)
          || (List.range ((line.map lowerChar).length + 1)).any (fun j =>
               decide (i + 4 ≤ j)
                 && fixCodesLower.any (fun c =>
                      decide (((line.map lowerChar).drop j).take 6 = c)))))

/-- Python substring containment, needle in hay. -/
def pyContains (needle hay : List Char) : Bool :=
  (List.range (hay.length + 1)).any (fun i =>
    decide ((hay.drop i).take needle.length = needle))

/-- Truthiness guarded containment check of lines 488 to 489: the current
ticket id is set, non-empty, and occurs as a substring of the whole line. -/
def ticketIdCond (tid : Option (List Char)) (l : Line) : Bool :=
  match tid with
  | some t => (!t.isEmpty) && pyContains t l
  | none => false

def pyRstrip (l : List Char) : List Char :=
  (l.reverse.dropWhile isSpaceCharB).reverse

inductive LineOutcome where
  | violation
  | ticketTodo
  | skip
deriving DecidableEq, Repr

/-- Per-line decision of check_file, lines 476 to 493: comment keyword
required, then the violation test (no jira key list or no jira match, and no
noqa), otherwise the current-ticket test on the whole line. -/
def lineOutcome (jkeys ckeys : List (List Char)) (tid : Option (List Char)) (l : Line) :
    LineOutcome :=
  if commentSearch ckeys l then
    if jkeys.isEmpty || !ticketSearch jkeys l then
      if !noqaSearch l then .violation else .skip
    else if ticketIdCond tid l then .ticketTodo
    else .skip
  else .skip

/-- Violation entries of check_file: 1-based line number and rstripped text. -/
def checkFileViolations (jkeys ckeys : List (List Char)) (tid : Option (List Char))
    (ls : List Line) : List (Nat × Line) :=
  (List.enumFrom 1 ls).filterMap (fun nl =>
    if lineOutcome jkeys ckeys tid nl.2 = .violation then some (nl.1, pyRstrip nl.2)
    else none)

/-- Ticket-todo entries appended by check_file for one file. -/
def checkFileTodos (jkeys ckeys : List (List Char)) (tid : Option (List Char))
    (ls : List Line) : List (Nat × Line) :=
  (List.enumFrom 1 ls).filterMap (fun nl =>
    if lineOutcome jkeys ckeys tid nl.2 = .ticketTodo then some (nl.1, pyRstrip nl.2)
    else none)

/-- Output of the external grep process invoked by find_todos_with_grep
(lines 167 to 186), modelled as an exact searcher: for each file in argument
order, the 1-based numbered lines matched by the comment keyword pattern. -/
def grepOutput (ckeys : List (List Char)) (fsys : FPath → List Line)
    (files : List FPath) : List (FPath × Nat × Line) :=
  files.flatMap (fun p =>
    (List.enumFrom 1 (fsys p)).filterMap (fun nl =>
      if commentSearch ckeys nl.2 then some (p, nl.1, nl.2) else none))

/-- Insertion ordered association map append, as a Python dict whose values
are lists grown with append. -/
def assocAppend (m : List (FPath × List (Nat × Line))) (k : FPath) (v : Nat × Line) :
    List (FPath × List (Nat × Line)) :=
  match m with
  | [] => [(k, [v])]
  | (k', vs) :: rest =>
    if k' = k then (k', vs ++ [v]) :: rest else (k', vs) :: assocAppend rest k v

def alookup (m : List (FPath × List (Nat × Line))) (k : FPath) :
    Option (List (Nat × Line)) :=
  match m with
  | [] => Option.none
  | (k', vs) :: rest => if k' = k then some vs else alookup rest k

/-- Processing of one parsed grep output line, lines 198 to 220: the same
violation and current-ticket tests as check_file, building todos_by_file and
appending to the shared ticket_todos list. -/
def grepStep (jkeys : List (List Char)) (tid : Option (List Char))
    (acc : List (FPath × List (Nat × Line)) × List (FPath × Nat × Line))
    (e : FPath × Nat × Line) :
    List (FPath × List (Nat × Line)) × List (FPath × Nat × Line) :=
  if jkeys.isEmpty || !ticketSearch jkeys e.2.2 then
    if !noqaSearch e.2.2 then (assocAppend acc.1 e.1 (e.2.1, pyRstrip e.2.2), acc.2)
    else acc
  else if ticketIdCond tid e.2.2 then (acc.1, acc.2 ++ [(e.1, e.2.1, pyRstrip e.2.2)])
  else acc

/-- find_todos_with_grep: the returned todos_by_file map together with the
ticket todos it appends as a side effect. -/
def grepProcess (jkeys : List (List Char)) (tid : Option (List Char))
    (out : List (FPath × Nat × Line)) :
    List (FPath × List (Nat × Line)) × List (FPath × Nat × Line) :=
  out.foldl (grepStep jkeys tid) ([], [])

/-- Engine configuration, the fields of TodoChecker read by check_files. -/
structure Config where
  jiraKeys : List (List Char)
  commentKeys : List (List Char)
  quiet : Bool
  verbose : Bool
  succeedAlways : Bool
  checkUnstaged : Bool
  currentTicketId : Option (List Char)

/-- One printed element of check_files, carrying exactly the data the
corresponding print statement interpolates. -/
inductive Ev where
  | warnNothing
  | verboseConfig (jkeys ckeys : List (List Char))
  | verboseNoFiles
  | errorLine (p : FPath) (n : Nat) (l : Line)
  | blank
  | unstagedHeader
  | warnLine (p : FPath) (n : Nat) (l : Line)
  | ticketHeader (tid : Option (List Char))
  | ticketLine (p : FPath) (n : Nat) (l : Line) (staged : Bool)
  | statusLine (p : FPath) (clean staged : Bool)
  | helpJira (jkeys ckeys : List (List Char))
  | helpNoJira
deriving DecidableEq, Repr

structure RunResult where
  stagedViolations : List (FPath × List (Nat × Line))
  unstagedViolations : List (FPath × List (Nat × Line))
  fileStatuses : List (FPath × Bool × Bool)
  ticketTodos : List (FPath × Nat × Line)
  events : List Ev
  exitCode : Nat
  returned : Nat

/-- Violations used for a file in the loop of lines 582 to 606: the grep
result when the file has an entry in todos_by_file, otherwise a fresh
check_file scan. -/
def fileViolOf (jkeys ckeys : List (List Char)) (tid : Option (List Char))
    (fsys : FPath → List Line) (gmap : List (FPath × List (Nat × Line)))
    (p : FPath) : List (Nat × Line) :=
  match alookup gmap p with
  | some vs => vs
  | none => checkFileViolations jkeys ckeys tid (fsys p)

/-- Ticket todos appended during the loop for a file: none when the grep map
has the file, since check_file is then not called. -/
def fileTodosOf (jkeys ckeys : List (List Char)) (tid : Option (List Char))
    (fsys : FPath → List Line) (gmap : List (FPath × List (Nat × Line)))
    (p : FPath) : List (FPath × Nat × Line) :=
  match alookup gmap p with
  | some _ => []
  | none => (checkFileTodos jkeys ckeys tid (fsys p)).map (fun nl => (p, nl.1, nl.2))

/-- Selection of files_to_check, lines 514 to 552: the filtered repository
list when no files were supplied, otherwise the supplied files plus, with
unstaged checking, the repository files not already supplied. -/
def filesToCheck (cu : Bool) (supplied repo : List FPath) : List FPath :=
  if supplied.isEmpty then repo
  else if cu then supplied ++ repo.filter (fun f => !decide (f ∈ supplied))
  else supplied

/-- Outcome of the batch grep attempt of lines 576 to 579: the processed
grep run when it is used, the empty map and no todos otherwise. -/
def gresOf (jkeys ckeys : List (List Char)) (tid : Option (List Char))
    (fsys : FPath → List Line) (files : List FPath) (useGrep : Bool) :
    List (FPath × List (Nat × Line)) × List (FPath × Nat × Line) :=
  if useGrep then grepProcess jkeys tid (grepOutput ckeys fsys files) else ([], [])

/-- A single run of TodoChecker.check_files on a fresh checker, lines 499 to
688.  supplied is the caller provided file list (staged set, empty for the
None case), repo the already filtered repository listing returned by the
collaborators, grepAvailable whether the external grep run succeeds. -/
def runCheck (cfg : Config) (fsys : FPath → List Line)
    (supplied repo : List FPath) (grepAvailable : Bool) : RunResult :=
  if supplied.isEmpty && !cfg.checkUnstaged then
    { stagedViolations := [], unstagedViolations := [], fileStatuses := [],
      ticketTodos := [],
      events := if cfg.quiet then [] else [Ev.warnNothing],
      exitCode := 0, returned := 0 }
  else
    let files : List FPath := filesToCheck cfg.checkUnstaged supplied repo
    let gres := gresOf cfg.jiraKeys cfg.commentKeys cfg.currentTicketId fsys files
      (grepAvailable && decide (files.length > 3))
    let fv := fileViolOf cfg.jiraKeys cfg.commentKeys cfg.currentTicketId fsys gres.1
    let sv := files.filterMap (fun p =>
      if decide (p ∈ supplied) && !(fv p).isEmpty then some (p, fv p) else Option.none)
    let uv := files.filterMap (fun p =>
      if !decide (p ∈ supplied) && !(fv p).isEmpty then some (p, fv p) else Option.none)
    let statuses := files.map (fun p => (p, (fv p).isEmpty, decide (p ∈ supplied)))
    let todos := gres.2 ++
      files.flatMap (fileTodosOf cfg.jiraKeys cfg.commentKeys cfg.currentTicketId fsys gres.1)
    let ec : Nat :=
      if files.any (fun p => decide (p ∈ supplied) && !(fv p).isEmpty) then 1 else 0
    let evs : List Ev :=
      (if cfg.verbose then
        [Ev.verboseConfig cfg.jiraKeys cfg.commentKeys] ++
          (if supplied.isEmpty then [Ev.verboseNoFiles] else [])
      else []) ++
      (if cfg.quiet then []
       else sv.flatMap (fun pv => pv.2.map (fun nl => Ev.errorLine pv.1 nl.1 nl.2))) ++
      (if !uv.isEmpty && !cfg.quiet then
        (if !sv.isEmpty then [Ev.blank] else []) ++ [Ev.unstagedHeader] ++
          uv.flatMap (fun pv => pv.2.map (fun nl => Ev.warnLine pv.1 nl.1 nl.2))
      else []) ++
      (if !todos.isEmpty && !cfg.quiet then
        [Ev.blank, Ev.ticketHeader cfg.currentTicketId] ++
          todos.map (fun t => Ev.ticketLine t.1 t.2.1 t.2.2 (decide (t.1 ∈ supplied)))
      else []) ++
      (if cfg.verbose then
        [Ev.blank] ++ statuses.map (fun st => Ev.statusLine st.1 st.2.1 st.2.2) ++
          (if ec = 1 then
            [Ev.blank] ++
              (if !cfg.jiraKeys.isEmpty then
                [Ev.helpJira cfg.jiraKeys cfg.commentKeys]
              else [Ev.helpNoJira])
          else [])
      else [])
    { stagedViolations := sv, unstagedViolations := uv, fileStatuses := statuses,
      ticketTodos := todos, events := evs, exitCode := ec,
      returned := if cfg.succeedAlways then 0 else ec }

example : commentSearch [strL "TODO"] (strL "# TODO: fix") = true := by decide

example : commentSearch [strL "TODO"] (strL "# TODOX: fix") = false := by decide

example : ticketSearch [strL "PROJ"] (strL "# TODO XPROJ-123") = true := by decide

example : ticketSearch [strL "PROJ"] (strL "# TODO PROJ-x") = false := by decide

example : noqaSearch (strL "# TODO a  # NoQa") = true := by decide

example : noqaSearch (strL "# TODO a  # noqa: FIX003 tail") = true := by decide

example : noqaSearch (strL "# TODO a  # noqa is fine") = false := by decide

example :
    checkFileViolations [strL "PROJ"] [strL "TODO"] Option.none
      [strL "# TODO: fix this", strL "# TODO PROJ-12: fix this"] =
      [(1, strL "# TODO: fix this")] := by decide

example : ticketFirstMatch [strL "PROJ"] (strL "# TODO PROJ-1 and PROJ-12") =
    some (strL "PROJ-1") := by decide

theorem mem_checkFileViolations_iff (jkeys ckeys : List (List Char))
    (tid : Option (List Char)) (ls : List Line) (n : Nat) (c : Line) :
    (n, c) ∈ checkFileViolations jkeys ckeys tid ls ↔
      ∃ l, 1 ≤ n ∧ ls[n - 1]? = some l ∧
        lineOutcome jkeys ckeys tid l = .violation ∧ c = pyRstrip l := by
  unfold checkFileViolations
  rw [List.mem_filterMap]
  constructor
  · rintro ⟨⟨m, l⟩, hmem, hf⟩
    by_cases h : lineOutcome jkeys ckeys tid l = .violation
    · simp only [h, if_true, Option.some.injEq, Prod.mk.injEq] at hf
      obtain ⟨rfl, rfl⟩ := hf
      rw [List.mk_mem_enumFrom_iff_le_and_getElem?_sub] at hmem
      exact ⟨l, hmem.1, hmem.2, h, rfl⟩
    · simp [h] at hf
  · rintro ⟨l, h1, hget, hout, rfl⟩
    refine ⟨(n, l), ?_, by simp [hout]⟩
    rw [List.mk_mem_enumFrom_iff_le_and_getElem?_sub]
    exact ⟨h1, hget⟩

theorem mem_checkFileTodos_iff (jkeys ckeys : List (List Char))
    (tid : Option (List Char)) (ls : List Line) (n : Nat) (c : Line) :
    (n, c) ∈ checkFileTodos jkeys ckeys tid ls ↔
      ∃ l, 1 ≤ n ∧ ls[n - 1]? = some l ∧
        lineOutcome jkeys ckeys tid l = .ticketTodo ∧ c = pyRstrip l := by
  unfold checkFileTodos
  rw [List.mem_filterMap]
  constructor
  · rintro ⟨⟨m, l⟩, hmem, hf⟩
    by_cases h : lineOutcome jkeys ckeys tid l = .ticketTodo
    · simp only [h, if_true, Option.some.injEq, Prod.mk.injEq] at hf
      obtain ⟨rfl, rfl⟩ := hf
      rw [List.mk_mem_enumFrom_iff_le_and_getElem?_sub] at hmem
      exact ⟨l, hmem.1, hmem.2, h, rfl⟩
    · simp [h] at hf
  · rintro ⟨l, h1, hget, hout, rfl⟩
    refine ⟨(n, l), ?_, by simp [hout]⟩
    rw [List.mk_mem_enumFrom_iff_le_and_getElem?_sub]
    exact ⟨h1, hget⟩

theorem ticketSearch_nil (l : Line) : ticketSearch [] l = false := by
  simp [ticketSearch]

theorem ticket_not_violation (jkeys ckeys : List (List Char))
    (tid : Option (List Char)) (l : Line) (ht : ticketSearch jkeys l = true) :
    lineOutcome jkeys ckeys tid l ≠ .violation := by
  have hne : jkeys.isEmpty = false := by
    cases jkeys with
    | nil => rw [ticketSearch_nil] at ht; cases ht
    | cons a as => rfl
  unfold lineOutcome
  rw [ht, hne]
  simp only [Bool.not_true, Bool.or_false]
  split
  · split
    · simp_all
    · split <;> simp
  · simp

theorem noqa_not_violation (jkeys ckeys : List (List Char))
    (tid : Option (List Char)) (l : Line) (hn : noqaSearch l = true) :
    lineOutcome jkeys ckeys tid l ≠ .violation := by
  unfold lineOutcome
  rw [hn]
  simp only [Bool.not_true]
  split
  · split
    · simp
    · split <;> simp
  · simp

/-- C1: a scanned line that contains a configured comment keyword and a valid
configured ticket reference is never classified as a violation: it is never
added to the violations list of its file. -/
theorem claim1_ticket_reference_never_violation
    (jkeys ckeys : List (List Char)) (tid : Option (List Char)) (ls : List Line)
    (i : Nat) (l : Line) (hl : ls[i]? = some l)
    (hc : commentSearch ckeys l = true) (ht : ticketSearch jkeys l = true)
    (c : Line) : (i + 1, c) ∉ checkFileViolations jkeys ckeys tid ls := by
  intro hmem
  rw [mem_checkFileViolations_iff] at hmem
  obtain ⟨l', h1, hget, hout, rfl⟩ := hmem
  rw [Nat.add_sub_cancel, hl] at hget
  cases Option.some.inj hget
  exact ticket_not_violation _ _ _ _ ht hout

theorem claim1_witness :
    (1, strL "# TODO PROJ-1") ∉
      checkFileViolations [strL "PROJ"] [strL "TODO"] Option.none
        [strL "# TODO PROJ-1"] :=
  claim1_ticket_reference_never_violation [strL "PROJ"] [strL "TODO"] Option.none
    [strL "# TODO PROJ-1"] 0 (strL "# TODO PROJ-1") rfl (by decide) (by decide)
    (strL "# TODO PROJ-1")

/-- C2 is false on the code: suppression is tested only inside the branch
without a ticket reference, so a line matching the suppression matcher that
also carries a valid reference containing the current ticket id is still
emitted as a ticket todo entry. -/
theorem claim2_counterexample :
    noqaSearch (strL "# TODO PROJ-12 x # noqa") = true ∧
    ticketSearch [strL "PROJ"] (strL "# TODO PROJ-12 x # noqa") = true ∧
    checkFileTodos [strL "PROJ"] [strL "TODO"] (some (strL "PROJ-12"))
      [strL "# TODO PROJ-12 x # noqa"] =
      [(1, strL "# TODO PROJ-12 x # noqa")] :=
  ⟨by decide, by decide, by decide⟩

/-- C2 (amended): a line matching the suppression matcher is never added to
the violations list, but suppression is consulted only for lines without a
valid ticket reference: a suppressed line whose valid reference satisfies the
current ticket test is still emitted as a ticket todo entry. -/
theorem claim2_suppression_scope
    (jkeys ckeys : List (List Char)) (tid : Option (List Char)) (ls : List Line)
    (i : Nat) (l : Line) (hl : ls[i]? = some l) (hn : noqaSearch l = true) :
    (∀ c, (i + 1, c) ∉ checkFileViolations jkeys ckeys tid ls) ∧
      (commentSearch ckeys l = true → ticketSearch jkeys l = true →
        ticketIdCond tid l = true →
        (i + 1, pyRstrip l) ∈ checkFileTodos jkeys ckeys tid ls) := by
  constructor
  · intro c hmem
    rw [mem_checkFileViolations_iff] at hmem
    obtain ⟨l', h1, hget, hout, rfl⟩ := hmem
    rw [Nat.add_sub_cancel, hl] at hget
    cases Option.some.inj hget
    exact noqa_not_violation _ _ _ _ hn hout
  · intro hc ht hcond
    rw [mem_checkFileTodos_iff]
    refine ⟨l, Nat.le_add_left 1 i, by rw [Nat.add_sub_cancel]; exact hl, ?_, rfl⟩
    have hne : jkeys.isEmpty = false := by
      cases jkeys with
      | nil => rw [ticketSearch_nil] at ht; cases ht
      | cons a as => rfl
    unfold lineOutcome
    rw [hc, ht, hne, hcond]
    simp

theorem claim2_witness :
    (1, strL "# TODO PROJ-12 x # noqa") ∈
      checkFileTodos [strL "PROJ"] [strL "TODO"] (some (strL "PROJ-12"))
        [strL "# TODO PROJ-12 x # noqa"] :=
  (claim2_suppression_scope [strL "PROJ"] [strL "TODO"] (some (strL "PROJ-12"))
      [strL "# TODO PROJ-12 x # noqa"] 0 (strL "# TODO PROJ-12 x # noqa") rfl
      (by decide)).2 (by decide) (by decide) (by decide)

/-- C3 is false on the code: the ticket matcher has no word boundary, so the
occurrence PROJ-123 embedded inside the longer token XPROJ-123 is a valid
reference and the comment line is not a violation. -/
theorem claim3_counterexample :
    ticketSearch [strL "PROJ"] (strL "# TODO XPROJ-123") = true ∧
    checkFileViolations [strL "PROJ"] [strL "TODO"] Option.none
      [strL "# TODO XPROJ-123"] = [] :=
  ⟨by decide, by decide⟩

/-- C3 (amended): the ticket matcher matches a configured key followed by a
dash and a digit anywhere in the line, with no whole token requirement, so a
line containing such an occurrence, even embedded inside a longer token,
carries a valid reference and is never classified as a violation. -/
theorem claim3_embedded_reference_matches
    (jkeys ckeys : List (List Char)) (tid : Option (List Char))
    (p pre post : List Char) (d : Char) (hp : p ∈ jkeys) (hd : d.isDigit = true) :
    ticketSearch jkeys (pre ++ p ++ '-' :: d :: post) = true ∧
    lineOutcome jkeys ckeys tid (pre ++ p ++ '-' :: d :: post) ≠ .violation := by
  have hts : ticketSearch jkeys (pre ++ p ++ '-' :: d :: post) = true := by
    unfold ticketSearch
    rw [List.any_eq_true]
    refine ⟨pre.length, ?_, ?_⟩
    · rw [List.mem_range]
      simp [List.length_append]
      omega
    · rw [List.any_eq_true]
      refine ⟨p, hp, ?_⟩
      unfold ticketMatchAt
      have hdrop : (pre ++ p ++ '-' :: d :: post).drop pre.length
          = p ++ '-' :: d :: post := by
        rw [List.append_assoc]
        exact List.drop_left pre _
      have hdrop2 : (pre ++ p ++ '-' :: d :: post).drop (pre.length + p.length)
          = '-' :: d :: post := by
        have h := List.drop_left (pre ++ p) ('-' :: d :: post)
        rw [List.length_append] at h
        rw [List.append_assoc] at h
        rw [List.append_assoc]
        exact h
      rw [hdrop, hdrop2]
      simp [List.take_left, hd]
  exact ⟨hts, ticket_not_violation _ _ _ _ hts⟩

theorem claim3_witness :
    ticketSearch [strL "PROJ"]
        (strL "# TODO X" ++ strL "PROJ" ++ '-' :: '1' :: strL "23") = true ∧
      lineOutcome [strL "PROJ"] [strL "TODO"] Option.none
        (strL "# TODO X" ++ strL "PROJ" ++ '-' :: '1' :: strL "23") ≠ .violation :=
  claim3_embedded_reference_matches [strL "PROJ"] [strL "TODO"] Option.none
    (strL "PROJ") (strL "# TODO X") (strL "23") '1' (by decide) (by decide)

/-- C6 is false on the code: the current ticket test is a substring test on
the whole line, not on the matched reference region, so a line whose first
matched reference does not contain the current ticket id is still emitted as
a ticket todo when the id occurs elsewhere in the line. -/
theorem claim6_counterexample :
    ticketFirstMatch [strL "PROJ"] (strL "# TODO PROJ-1 and PROJ-12")
      = some (strL "PROJ-1") ∧
    pyContains (strL "PROJ-12") (strL "PROJ-1") = false ∧
    checkFileTodos [strL "PROJ"] [strL "TODO"] (some (strL "PROJ-12"))
      [strL "# TODO PROJ-1 and PROJ-12"]
      = [(1, strL "# TODO PROJ-1 and PROJ-12")] :=
  ⟨by decide, by decide, by decide⟩

/-- C6 (amended): a comment keyword line carrying a valid ticket reference is
emitted as a ticket todo exactly when the current ticket id is set, not
empty, and occurs as a substring of the whole line; otherwise it is left
unreported, and in either case it is never a violation. -/
theorem claim6_ticket_tracked_iff_line_substring
    (jkeys ckeys : List (List Char)) (t : List Char) (l : Line)
    (hc : commentSearch ckeys l = true) (ht : ticketSearch jkeys l = true) :
    (lineOutcome jkeys ckeys (some t) l = .ticketTodo ↔
      ((!t.isEmpty) && pyContains t l) = true) ∧
    lineOutcome jkeys ckeys (some t) l ≠ .violation := by
  have hne : jkeys.isEmpty = false := by
    cases jkeys with
    | nil => rw [ticketSearch_nil] at ht; cases ht
    | cons a as => rfl
  refine ⟨?_, ticket_not_violation _ _ _ _ ht⟩
  unfold lineOutcome
  rw [hc, ht, hne]
  simp only [Bool.not_true, Bool.or_false, if_true]
  unfold ticketIdCond
  split <;> simp_all

theorem claim6_witness :
    (lineOutcome [strL "PROJ"] [strL "TODO"] (some (strL "PROJ-12"))
        (strL "# TODO PROJ-1 and PROJ-12") = .ticketTodo ↔
      ((!(strL "PROJ-12").isEmpty) &&
        pyContains (strL "PROJ-12") (strL "# TODO PROJ-1 and PROJ-12")) = true) ∧
    lineOutcome [strL "PROJ"] [strL "TODO"] (some (strL "PROJ-12"))
      (strL "# TODO PROJ-1 and PROJ-12") ≠ .violation :=
  claim6_ticket_tracked_iff_line_substring [strL "PROJ"] [strL "TODO"]
    (strL "PROJ-12") (strL "# TODO PROJ-1 and PROJ-12") (by decide) (by decide)

/-- C7 is false on the code: with an empty ticket key list the suppression
marker still exempts a comment keyword line, so line content can prevent the
violation. -/
theorem claim7_counterexample :
    commentSearch [strL "TODO"] (strL "# TODO x  # noqa") = true ∧
    checkFileViolations [] [strL "TODO"] Option.none [strL "# TODO x  # noqa"]
      = [] :=
  ⟨by decide, by decide⟩

/-- C7 (amended): with no configured ticket keys, every comment keyword line
that does not match the suppression matcher is a violation; no ticket
reference can exempt it, but the suppression marker still can. -/
theorem claim7_empty_keys_unsuppressed_violation
    (ckeys : List (List Char)) (tid : Option (List Char)) (ls : List Line)
    (i : Nat) (l : Line) (hl : ls[i]? = some l)
    (hc : commentSearch ckeys l = true) (hn : noqaSearch l = false) :
    (i + 1, pyRstrip l) ∈ checkFileViolations [] ckeys tid ls := by
  rw [mem_checkFileViolations_iff]
  refine ⟨l, Nat.le_add_left 1 i, by rw [Nat.add_sub_cancel]; exact hl, ?_, rfl⟩
  unfold lineOutcome
  rw [hc, hn]
  simp

theorem claim7_witness :
    (1, pyRstrip (strL "# TODO: fix")) ∈
      checkFileViolations [] [strL "TODO"] Option.none [strL "# TODO: fix"] :=
  claim7_empty_keys_unsuppressed_violation [strL "TODO"] Option.none
    [strL "# TODO: fix"] 0 (strL "# TODO: fix") rfl (by decide) (by decide)

theorem take_of_length_eq {l2 : List Char} (l1 : List Char) (n : Nat)
    (h : l1.length = n) : (l1 ++ l2).take n = l1 := by
  subst h
  exact List.take_left l1 l2

/-- C10: the suppression marker is matched case-insensitively, and a marker
qualified with any of the four fixed codes FIX001 to FIX004 suppresses the
line under every configuration of comment keywords, regardless of which
keyword matched and of its ordinal position in the configuration. -/
theorem claim10_noqa_case_insensitive_fix_codes
    (jkeys ckeys : List (List Char)) (tid : Option (List Char))
    (pre mid post q code : List Char)
    (hq : q.map lowerChar = strL "noqa")
    (hcode : code ∈ [strL "FIX001", strL "FIX002", strL "FIX003", strL "FIX004"]) :
    noqaSearch (pre ++ q ++ mid ++ code ++ post) = true ∧
    lineOutcome jkeys ckeys tid (pre ++ q ++ mid ++ code ++ post) ≠ .violation := by
  have hcl : code.map lowerChar ∈ fixCodesLower ∧ (code.map lowerChar).length = 6 := by
    simp only [List.mem_cons, List.not_mem_nil, or_false] at hcode
    rcases hcode with rfl | rfl | rfl | rfl <;> exact ⟨by decide, by decide⟩
  have hlow : (pre ++ q ++ mid ++ code ++ post).map lowerChar
      = pre.map lowerChar ++ noqaLit ++ mid.map lowerChar
        ++ code.map lowerChar ++ post.map lowerChar := by
    simp [List.map_append, hq, noqaLit]
  have hn4 : noqaLit.length = 4 := by decide
  have hc6 : (List.map lowerChar code).length = 6 := hcl.2
  have hsearch : noqaSearch (pre ++ q ++ mid ++ code ++ post) = true := by
    unfold noqaSearch
    rw [hlow, List.any_eq_true]
    refine ⟨(pre.map lowerChar).length, ?_, ?_⟩
    · rw [List.mem_range]
      simp [List.length_append, hn4, hc6]
      omega
    · rw [Bool.and_eq_true]
      constructor
      · rw [decide_eq_true_eq]
        have hd1 : (pre.map lowerChar ++ noqaLit ++ mid.map lowerChar
            ++ code.map lowerChar ++ post.map lowerChar).drop (pre.map lowerChar).length
            = noqaLit ++ (mid.map lowerChar ++ (code.map lowerChar
              ++ post.map lowerChar)) := by
          rw [show pre.map lowerChar ++ noqaLit ++ mid.map lowerChar
              ++ code.map lowerChar ++ post.map lowerChar
              = pre.map lowerChar ++ (noqaLit ++ (mid.map lowerChar
                ++ (code.map lowerChar ++ post.map lowerChar))) from by
            simp [List.append_assoc]]
          exact List.drop_left _ _
        rw [hd1]
        exact take_of_length_eq noqaLit 4 (by decide)
      · rw [Bool.or_eq_true]
        right
        rw [List.any_eq_true]
        refine ⟨(pre.map lowerChar).length + 4 + (mid.map lowerChar).length, ?_, ?_⟩
        · rw [List.mem_range]
          simp [List.length_append, hn4, hc6]
          omega
        · rw [Bool.and_eq_true]
          refine ⟨by rw [decide_eq_true_eq]; omega, ?_⟩
          rw [List.any_eq_true]
          refine ⟨code.map lowerChar, hcl.1, ?_⟩
          rw [decide_eq_true_eq]
          have hd2 : (pre.map lowerChar ++ noqaLit ++ mid.map lowerChar
              ++ code.map lowerChar ++ post.map lowerChar).drop
                ((pre.map lowerChar).length + 4 + (mid.map lowerChar).length)
              = code.map lowerChar ++ post.map lowerChar := by
            have hlen : (pre.map lowerChar ++ noqaLit ++ mid.map lowerChar).length
                = (pre.map lowerChar).length + 4 + (mid.map lowerChar).length := by
              simp [List.length_append, hn4]
              omega
            rw [show pre.map lowerChar ++ noqaLit ++ mid.map lowerChar
                ++ code.map lowerChar ++ post.map lowerChar
                = (pre.map lowerChar ++ noqaLit ++ mid.map lowerChar)
                  ++ (code.map lowerChar ++ post.map lowerChar) from by
              simp [List.append_assoc]]
            rw [← hlen]
            exact List.drop_left _ _
          rw [hd2]
          exact take_of_length_eq (code.map lowerChar) 6 hcl.2
  exact ⟨hsearch, noqa_not_violation _ _ _ _ hsearch⟩

theorem claim10_witness :
    noqaSearch (strL "# HACK thing " ++ strL "NoQa" ++ strL ": "
        ++ strL "FIX003" ++ strL " tail") = true ∧
    lineOutcome [] [strL "HACK"] Option.none
      (strL "# HACK thing " ++ strL "NoQa" ++ strL ": "
        ++ strL "FIX003" ++ strL " tail") ≠ .violation :=
  claim10_noqa_case_insensitive_fix_codes [] [strL "HACK"] Option.none
    (strL "# HACK thing ") (strL ": ") (strL " tail") (strL "NoQa") (strL "FIX003")
    (by decide) (by decide)

/-- C4 is false on the code: with no supplied files and unstaged checking
enabled, the staged set is empty, so a violation discovered in the
repository listing is advisory and the run returns exit code 0, not 1. -/
theorem claim4_counterexample :
    (runCheck
        { jiraKeys := [strL "PROJ"], commentKeys := [strL "TODO"], quiet := false,
          verbose := false, succeedAlways := false, checkUnstaged := true,
          currentTicketId := Option.none }
        (fun p => if p = strL "a" then [strL "# TODO x"] else [])
        [] [strL "a"] false).returned = 0 ∧
    (runCheck
        { jiraKeys := [strL "PROJ"], commentKeys := [strL "TODO"], quiet := false,
          verbose := false, succeedAlways := false, checkUnstaged := true,
          currentTicketId := Option.none }
        (fun p => if p = strL "a" then [strL "# TODO x"] else [])
        [] [strL "a"] false).unstagedViolations =
      [(strL "a", [(1, strL "# TODO x")])] :=
  ⟨by decide, by decide⟩

/-- C4 (amended): when the caller supplies no file list and unstaged checking
is enabled, the engine scans the full filtered repository file list, but the
staged set is empty, so every discovered violation is advisory: there are no
staged violations and the exit code is 0. -/
theorem claim4_no_supplied_files_advisory
    (cfg : Config) (fsys : FPath → List Line) (repo : List FPath) (g : Bool)
    (hu : cfg.checkUnstaged = true) :
    (runCheck cfg fsys [] repo g).exitCode = 0 ∧
    (runCheck cfg fsys [] repo g).stagedViolations = [] ∧
    (runCheck cfg fsys [] repo g).returned = 0 := by
  obtain ⟨jk, ck, qt, vb, sa, cu, tid⟩ := cfg
  simp only [Config.checkUnstaged] at hu
  subst hu
  simp only [runCheck, List.isEmpty_nil, Bool.not_true, Bool.and_false,
    Bool.false_eq_true, if_false]
  refine ⟨?_, ?_, ?_⟩
  · simp [List.not_mem_nil]
  · simp [List.not_mem_nil]
  · cases sa <;> simp [List.not_mem_nil]

theorem claim4_witness :
    (runCheck
        { jiraKeys := [strL "PROJ"], commentKeys := [strL "TODO"], quiet := false,
          verbose := false, succeedAlways := false, checkUnstaged := true,
          currentTicketId := Option.none }
        (fun p => if p = strL "a" then [strL "# TODO x"] else [])
        [] [strL "a"] false).exitCode = 0 ∧
    (runCheck
        { jiraKeys := [strL "PROJ"], commentKeys := [strL "TODO"], quiet := false,
          verbose := false, succeedAlways := false, checkUnstaged := true,
          currentTicketId := Option.none }
        (fun p => if p = strL "a" then [strL "# TODO x"] else [])
        [] [strL "a"] false).stagedViolations = [] ∧
    (runCheck
        { jiraKeys := [strL "PROJ"], commentKeys := [strL "TODO"], quiet := false,
          verbose := false, succeedAlways := false, checkUnstaged := true,
          currentTicketId := Option.none }
        (fun p => if p = strL "a" then [strL "# TODO x"] else [])
        [] [strL "a"] false).returned = 0 :=
  claim4_no_supplied_files_advisory
    { jiraKeys := [strL "PROJ"], commentKeys := [strL "TODO"], quiet := false,
      verbose := false, succeedAlways := false, checkUnstaged := true,
      currentTicketId := Option.none }
    (fun p => if p = strL "a" then [strL "# TODO x"] else [])
    [strL "a"] false rfl

/-- C8: succeedAlways is a pure override applied last: the printed events,
the violation partitions, the statuses, the ticket todos and the internal
exit determination are identical to the run with succeedAlways cleared, and
the returned code is 0 when succeedAlways is set and the internal exit code
otherwise. -/
theorem claim8_succeed_always_pure_override
    (cfg : Config) (fsys : FPath → List Line) (supplied repo : List FPath) (g : Bool) :
    (runCheck cfg fsys supplied repo g).events =
      (runCheck { cfg with succeedAlways := false } fsys supplied repo g).events ∧
    (runCheck cfg fsys supplied repo g).exitCode =
      (runCheck { cfg with succeedAlways := false } fsys supplied repo g).exitCode ∧
    (runCheck cfg fsys supplied repo g).stagedViolations =
      (runCheck { cfg with succeedAlways := false } fsys supplied repo g).stagedViolations ∧
    (runCheck cfg fsys supplied repo g).unstagedViolations =
      (runCheck { cfg with succeedAlways := false } fsys supplied repo g).unstagedViolations ∧
    (runCheck cfg fsys supplied repo g).fileStatuses =
      (runCheck { cfg with succeedAlways := false } fsys supplied repo g).fileStatuses ∧
    (runCheck cfg fsys supplied repo g).ticketTodos =
      (runCheck { cfg with succeedAlways := false } fsys supplied repo g).ticketTodos ∧
    (runCheck cfg fsys supplied repo g).returned =
      (if cfg.succeedAlways then 0 else (runCheck cfg fsys supplied repo g).exitCode) := by
  obtain ⟨jk, ck, qt, vb, sa, cu, tid⟩ := cfg
  by_cases h : (supplied.isEmpty && !cu) = true
  · simp only [runCheck, h, if_true]
    cases sa <;> simp
  · rw [Bool.not_eq_true] at h
    simp only [runCheck, h, Bool.false_eq_true, if_false]
    cases sa <;> simp

theorem alookup_assocAppend (k p : FPath) (v : Nat × Line) :
    ∀ (m : List (FPath × List (Nat × Line))),
      alookup (assocAppend m k v) p =
        if p = k then
          some ((match alookup m k with
                 | some vs => vs
                 | none => []) ++ [v])
        else alookup m p := by
  intro m
  induction m with
  | nil =>
    by_cases h : p = k
    · subst h
      simp [assocAppend, alookup]
    · simp [assocAppend, alookup, h, Ne.symm h]
  | cons hd rest ih =>
    obtain ⟨k', vs⟩ := hd
    by_cases h1 : k' = k
    · subst h1
      by_cases h2 : p = k'
      · subst h2
        simp [assocAppend, alookup]
      · simp [assocAppend, alookup, h2, Ne.symm h2]
    · by_cases h2 : k' = p
      · subst h2
        simp [assocAppend, alookup, h1, fun hh : k' = k => h1 hh]
      · simp [assocAppend, alookup, h1, h2, ih]

theorem grepStep_fst_cases (jkeys : List (List Char)) (tid : Option (List Char))
    (acc : List (FPath × List (Nat × Line)) × List (FPath × Nat × Line))
    (e : FPath × Nat × Line) :
    (grepStep jkeys tid acc e).1 = acc.1 ∨
      ((grepStep jkeys tid acc e).1 = assocAppend acc.1 e.1 (e.2.1, pyRstrip e.2.2) ∧
        (jkeys.isEmpty || !ticketSearch jkeys e.2.2) = true ∧
        noqaSearch e.2.2 = false) := by
  unfold grepStep
  by_cases hb : (jkeys.isEmpty || !ticketSearch jkeys e.2.2) = true
  · rw [if_pos hb]
    by_cases hn : noqaSearch e.2.2 = true
    · refine Or.inl ?_
      simp only [hn, Bool.not_true, Bool.false_eq_true, if_false]
    · rw [Bool.not_eq_true] at hn
      refine Or.inr ⟨?_, hb, hn⟩
      simp only [hn, Bool.not_false, if_true]
  · rw [if_neg hb]
    split
    · exact Or.inl rfl
    · exact Or.inl rfl

theorem foldl_grepStep_keys (jkeys : List (List Char)) (tid : Option (List Char)) :
    ∀ (out : List (FPath × Nat × Line))
      (acc : List (FPath × List (Nat × Line)) × List (FPath × Nat × Line)) (p : FPath),
      alookup (out.foldl (grepStep jkeys tid) acc).1 p ≠ Option.none →
      alookup acc.1 p ≠ Option.none ∨
        ∃ e ∈ out, e.1 = p ∧ (jkeys.isEmpty || !ticketSearch jkeys e.2.2) = true ∧
          noqaSearch e.2.2 = false := by
  intro out
  induction out with
  | nil => exact fun acc p h => Or.inl h
  | cons e rest ih =>
    intro acc p h
    rw [List.foldl_cons] at h
    rcases ih (grepStep jkeys tid acc e) p h with h2 | ⟨e', he', hp, hcond⟩
    · rcases grepStep_fst_cases jkeys tid acc e with hcase | ⟨hcase, hb, hn⟩
      · rw [hcase] at h2
        exact Or.inl h2
      · rw [hcase, alookup_assocAppend] at h2
        by_cases hpe : p = e.1
        · exact Or.inr ⟨e, List.mem_cons_self e rest, hpe.symm, hb, hn⟩
        · rw [if_neg hpe] at h2
          exact Or.inl h2
    · exact Or.inr ⟨e', List.mem_cons_of_mem e he', hp, hcond⟩

theorem foldl_grepStep_values (jkeys : List (List Char)) (tid : Option (List Char)) :
    ∀ (out : List (FPath × Nat × Line))
      (acc : List (FPath × List (Nat × Line)) × List (FPath × Nat × Line)),
      (∀ p vs, alookup acc.1 p = some vs → vs ≠ []) →
      ∀ p vs, alookup (out.foldl (grepStep jkeys tid) acc).1 p = some vs → vs ≠ [] := by
  intro out
  induction out with
  | nil => exact fun acc hacc p vs h => hacc p vs h
  | cons e rest ih =>
    intro acc hacc p vs h
    rw [List.foldl_cons] at h
    refine ih (grepStep jkeys tid acc e) ?_ p vs h
    intro p' vs' h'
    rcases grepStep_fst_cases jkeys tid acc e with hcase | ⟨hcase, _, _⟩
    · rw [hcase] at h'
      exact hacc p' vs' h'
    · rw [hcase, alookup_assocAppend] at h'
      by_cases hpe : p' = e.1
      · rw [if_pos hpe] at h'
        cases Option.some.inj h'
        simp
      · rw [if_neg hpe] at h'
        exact hacc p' vs' h'

theorem grepOutput_mem (ckeys : List (List Char)) (fsys : FPath → List Line)
    (files : List FPath) (e : FPath × Nat × Line)
    (he : e ∈ grepOutput ckeys fsys files) :
    e.1 ∈ files ∧ 1 ≤ e.2.1 ∧ (fsys e.1)[e.2.1 - 1]? = some e.2.2 ∧
      commentSearch ckeys e.2.2 = true := by
  unfold grepOutput at he
  rw [List.mem_flatMap] at he
  obtain ⟨p, hp, he2⟩ := he
  rw [List.mem_filterMap] at he2
  obtain ⟨⟨n, l⟩, hmem, hf⟩ := he2
  by_cases hcs : commentSearch ckeys l = true
  · simp only [hcs, if_true, Option.some.injEq] at hf
    subst hf
    rw [List.mk_mem_enumFrom_iff_le_and_getElem?_sub] at hmem
    exact ⟨hp, hmem.1, hmem.2, hcs⟩
  · simp [hcs] at hf

theorem isEmpty_not_iff (l : List (Nat × Line)) : (!l.isEmpty) = true ↔ l ≠ [] := by
  cases l <;> simp

/-- Equivalence used for the exit code: whether grep is used or not, the
violations recorded for a checked file are non-empty exactly when a fresh
check_file scan of that file yields a violation. -/
theorem fileViol_nonempty_iff (jkeys ckeys : List (List Char))
    (tid : Option (List Char)) (fsys : FPath → List Line) (files : List FPath)
    (u : Bool) (p : FPath) (hp : p ∈ files) :
    fileViolOf jkeys ckeys tid fsys (gresOf jkeys ckeys tid fsys files u).1 p ≠ [] ↔
      checkFileViolations jkeys ckeys tid (fsys p) ≠ [] := by
  cases u with
  | false =>
    simp only [gresOf, Bool.false_eq_true, if_false]
    unfold fileViolOf
    simp [alookup]
  | true =>
    simp only [gresOf, if_true]
    unfold fileViolOf
    cases hma : alookup (grepProcess jkeys tid (grepOutput ckeys fsys files)).1 p with
    | none => exact Iff.rfl
    | some vs =>
      have hv : vs ≠ [] := by
        unfold grepProcess at hma
        exact foldl_grepStep_values jkeys tid _ ([], [])
          (fun p' vs' h' => by cases h') p vs hma
      have hkey : alookup (grepProcess jkeys tid (grepOutput ckeys fsys files)).1 p
          ≠ Option.none := by
        rw [hma]
        exact fun hh => by cases hh
      unfold grepProcess at hkey
      rcases foldl_grepStep_keys jkeys tid (grepOutput ckeys fsys files) ([], []) p hkey
        with habs | ⟨e, he, hp1, hb, hn⟩
      · exact absurd rfl habs
      · obtain ⟨hpf, h1n, hget, hcs⟩ := grepOutput_mem ckeys fsys files e he
        have hout : lineOutcome jkeys ckeys tid e.2.2 = .violation := by
          unfold lineOutcome
          rw [hcs, hb, hn]
          simp
        have hmm : (e.2.1, pyRstrip e.2.2) ∈
            checkFileViolations jkeys ckeys tid (fsys p) := by
          rw [mem_checkFileViolations_iff]
          rw [hp1] at hget
          exact ⟨e.2.2, h1n, hget, hout, rfl⟩
        have hr : checkFileViolations jkeys ckeys tid (fsys p) ≠ [] :=
          List.ne_nil_of_mem hmm
        simp [hv, hr]

theorem supplied_subset_filesToCheck (cu : Bool) (supplied repo : List FPath)
    (p : FPath) (hp : p ∈ supplied) : p ∈ filesToCheck cu supplied repo := by
  unfold filesToCheck
  cases supplied with
  | nil => cases hp
  | cons a as =>
    simp only [List.isEmpty_cons, Bool.false_eq_true, if_false]
    cases cu with
    | true => simp only [if_true]; exact List.mem_append_left _ hp
    | false => simp only [Bool.false_eq_true, if_false]; exact hp

/-- The staged any-test of the loop is equivalent to the existence of a
supplied file whose fresh scan yields a violation. -/
theorem runCheck_any_iff (jk ck : List (List Char)) (tid : Option (List Char))
    (fsys : FPath → List Line) (supplied repo : List FPath) (cu u : Bool) :
    ((filesToCheck cu supplied repo).any (fun p =>
        decide (p ∈ supplied) &&
          !(fileViolOf jk ck tid fsys
              (gresOf jk ck tid fsys (filesToCheck cu supplied repo) u).1 p).isEmpty)
        = true) ↔
      ∃ p ∈ supplied, checkFileViolations jk ck tid (fsys p) ≠ [] := by
  rw [List.any_eq_true]
  constructor
  · rintro ⟨p, hpf, hcond⟩
    rw [Bool.and_eq_true] at hcond
    obtain ⟨hps, hfv⟩ := hcond
    rw [decide_eq_true_eq] at hps
    refine ⟨p, hps, ?_⟩
    rw [← fileViol_nonempty_iff jk ck tid fsys (filesToCheck cu supplied repo) u p hpf]
    exact (isEmpty_not_iff _).mp hfv
  · rintro ⟨p, hps, hne⟩
    have hpf := supplied_subset_filesToCheck cu supplied repo p hps
    refine ⟨p, hpf, ?_⟩
    rw [Bool.and_eq_true, decide_eq_true_eq]
    refine ⟨hps, ?_⟩
    exact (isEmpty_not_iff _).mpr
      ((fileViol_nonempty_iff jk ck tid fsys (filesToCheck cu supplied repo) u p
        hpf).mpr hne)

/-- C5: the exit code of a single run is 1 exactly when some file of the
originally supplied list has a violation; files discovered only through the
repository listing and ticket todo entries never influence it, and the
result is always 0 or 1. -/
theorem claim5_exit_code_iff_supplied_violation
    (cfg : Config) (fsys : FPath → List Line) (supplied repo : List FPath) (g : Bool)
    (hs : cfg.succeedAlways = false) :
    ((runCheck cfg fsys supplied repo g).returned = 1 ↔
      ∃ p ∈ supplied,
        checkFileViolations cfg.jiraKeys cfg.commentKeys cfg.currentTicketId
          (fsys p) ≠ []) ∧
    ((runCheck cfg fsys supplied repo g).returned = 0 ∨
      (runCheck cfg fsys supplied repo g).returned = 1) := by
  obtain ⟨jk, ck, qt, vb, sa, cu, tid⟩ := cfg
  simp only [Config.succeedAlways] at hs
  subst hs
  by_cases h : (supplied.isEmpty && !cu) = true
  · have hnil : supplied = [] := by
      rw [Bool.and_eq_true] at h
      exact List.isEmpty_iff.mp h.1
    subst hnil
    simp only [runCheck, h, if_true]
    simp
  · rw [Bool.not_eq_true] at h
    simp only [runCheck, h, Bool.false_eq_true, if_false, Config.jiraKeys,
      Config.commentKeys, Config.currentTicketId, Config.succeedAlways,
      Config.checkUnstaged]
    simp only [runCheck_any_iff jk ck tid fsys supplied repo cu
      (g && decide ((filesToCheck cu supplied repo).length > 3))]
    constructor
    · constructor
      · intro h1
        by_cases hex : ∃ p ∈ supplied, checkFileViolations jk ck tid (fsys p) ≠ []
        · exact hex
        · simp only [hex, if_false] at h1
          cases h1
      · intro hex
        simp only [hex, if_true]
    · by_cases hex : ∃ p ∈ supplied, checkFileViolations jk ck tid (fsys p) ≠ []
      · right
        simp only [hex, if_true]
      · left
        simp only [hex, if_false]

theorem claim5_witness :
    ((runCheck
        { jiraKeys := [strL "PROJ"], commentKeys := [strL "TODO"], quiet := false,
          verbose := false, succeedAlways := false, checkUnstaged := false,
          currentTicketId := Option.none }
        (fun p => if p = strL "a" then [strL "# TODO x"] else [])
        [strL "a"] [] false).returned = 1 ↔
      ∃ p ∈ [strL "a"],
        checkFileViolations [strL "PROJ"] [strL "TODO"] Option.none
          ((fun q => if q = strL "a" then [strL "# TODO x"] else []) p) ≠ []) ∧
    ((runCheck
        { jiraKeys := [strL "PROJ"], commentKeys := [strL "TODO"], quiet := false,
          verbose := false, succeedAlways := false, checkUnstaged := false,
          currentTicketId := Option.none }
        (fun p => if p = strL "a" then [strL "# TODO x"] else [])
        [strL "a"] [] false).returned = 0 ∨
      (runCheck
        { jiraKeys := [strL "PROJ"], commentKeys := [strL "TODO"], quiet := false,
          verbose := false, succeedAlways := false, checkUnstaged := false,
          currentTicketId := Option.none }
        (fun p => if p = strL "a" then [strL "# TODO x"] else [])
        [strL "a"] [] false).returned = 1) :=
  claim5_exit_code_iff_supplied_violation
    { jiraKeys := [strL "PROJ"], commentKeys := [strL "TODO"], quiet := false,
      verbose := false, succeedAlways := false, checkUnstaged := false,
      currentTicketId := Option.none }
    (fun p => if p = strL "a" then [strL "# TODO x"] else [])
    [strL "a"] [] false rfl

/-- C9 fails on the code: with more than 3 files, a file whose only comment
lines are ticket tracked gets no entry in the grep map, so the loop falls
back to check_file for it and its ticket todo entries are appended a second
time; the per-file path appends them once. -/
theorem claim9_grep_duplicates_ticket_todos :
    (runCheck
        { jiraKeys := [strL "PROJ"], commentKeys := [strL "TODO"], quiet := false,
          verbose := false, succeedAlways := false, checkUnstaged := false,
          currentTicketId := some (strL "PROJ-7") }
        (fun p => if p = strL "d" then [strL "# TODO PROJ-7 x"] else [strL "y"])
        [strL "a", strL "b", strL "c", strL "d"] [] true).ticketTodos =
      [(strL "d", 1, strL "# TODO PROJ-7 x"),
       (strL "d", 1, strL "# TODO PROJ-7 x")] ∧
    (runCheck
        { jiraKeys := [strL "PROJ"], commentKeys := [strL "TODO"], quiet := false,
          verbose := false, succeedAlways := false, checkUnstaged := false,
          currentTicketId := some (strL "PROJ-7") }
        (fun p => if p = strL "d" then [strL "# TODO PROJ-7 x"] else [strL "y"])
        [strL "a", strL "b", strL "c", strL "d"] [] false).ticketTodos =
      [(strL "d", 1, strL "# TODO PROJ-7 x")] :=
  ⟨by decide, by decide⟩
